import Mathlib

/-!
Verification of `tools/idevicebtlogger.c` (libimobiledevice).

Shallow embedding: frame buffers are `List Nat` of bytes, machine integers
are `Nat` with explicit `% 2^32` where C unsigned wraparound matters, global
mutable state is threaded explicitly through state records, and externally
delivered events (device attach/detach, service-start outcomes) are explicit
inputs.
-/

namespace BtLogger

/-- Modelled from the spec: `bt_packet_logger_header_t` is declared in the
library headers, not in the tool source; the spec describes the frame header
as three big-endian 32-bit fields (declared length, timestamp seconds,
timestamp microseconds), so `sizeof(bt_packet_logger_header_t) = 12` and the
type byte sits at offset 12. -/
def headerSize : Nat := 12

/-- Big-endian 32-bit read at byte offset `i` (models `ntohl` applied to a
32-bit header field stored in wire order). Out-of-range bytes read as 0. -/
def readBE32 (data : List Nat) (i : Nat) : Nat :=
  data.getD i 0 * 2 ^ 24 + data.getD (i + 1) 0 * 2 ^ 16 +
    data.getD (i + 2) 0 * 2 ^ 8 + data.getD (i + 3) 0

/-- `pcap_header.caplen = ntohl(header->length) + sizeof(uint32_t)`,
a `bpf_u_int32` field, so the sum wraps modulo `2^32`. -/
def caplenComputed (declaredLen : Nat) : Nat :=
  (declaredLen + 4) % 2 ^ 32

/-- `pcap_header.len = len - sizeof(bt_packet_logger_header_t) + sizeof(uint32_t)`
with `len : uint16_t`; the unsigned subtraction wraps, and the result is
stored in a `bpf_u_int32`, hence modulo `2^32`. -/
def origlenComputed (frameLen : Nat) : Nat :=
  (frameLen + 2 ^ 32 - headerSize + 4) % 2 ^ 32

/-- `PacketLoggerPacketType` constants from the source. -/
def HCI_COMMAND : Nat := 0x00
def HCI_EVENT : Nat := 0x01
def SENT_ACL_DATA : Nat := 0x02
def RECV_ACL_DATA : Nat := 0x03

/-- Direction pseudo-header value (`LIBPCAP_BT_PHDR_SENT` / `_RECV`). -/
inductive Direction where
  | sent
  | recv
deriving DecidableEq, Repr

/-- The `switch(packet_type)` mapping to the H4 uart type byte:
HCI_EVENT → 0x04, HCI_COMMAND → 0x01, SENT_ACL_DATA → 0x02,
RECV_ACL_DATA → 0x02, default: the packet type itself. -/
def hciH4Type (t : Nat) : Nat :=
  if t = HCI_EVENT then 0x04
  else if t = HCI_COMMAND then 0x01
  else if t = SENT_ACL_DATA then 0x02
  else if t = RECV_ACL_DATA then 0x02
  else t

/-- The `switch(packet_type)` mapping to the direction:
HCI_EVENT → RECV, HCI_COMMAND → SENT, SENT_ACL_DATA → SENT,
RECV_ACL_DATA → RECV, default: RECV. -/
def hciDirection (t : Nat) : Direction :=
  if t = HCI_EVENT then .recv
  else if t = HCI_COMMAND then .sent
  else if t = SENT_ACL_DATA then .sent
  else if t = RECV_ACL_DATA then .recv
  else .recv

/-- The four bytes written by `*(uint32_t*)&data[offset] = direction`:
`LIBPCAP_BT_PHDR_SENT = 0x00000000` and
`LIBPCAP_BT_PHDR_RECV = htonl(0x00000001)`, i.e. in memory/wire order
big-endian `00 00 00 01`. -/
def directionBytes : Direction → List Nat
  | .sent => [0, 0, 0, 0]
  | .recv => [0, 0, 0, 1]

/-- The `struct pcap_pkthdr` filled in by the callback. -/
structure PcapHeader where
  caplen : Nat
  len : Nat
  ts_sec : Nat
  ts_usec : Nat
deriving DecidableEq, Repr

/-- One record handed to `pcap_dump`: the packet header plus the bytes
starting at `&data[offset]` (offset = headerSize - 4 = 8) after the in-place
rewrite. -/
structure PcapRecord where
  header : PcapHeader
  bytes : List Nat
deriving DecidableEq, Repr

/-- Write the list `vs` into `data` starting at index `i`. -/
def writeBytes (data : List Nat) (i : Nat) (vs : List Nat) : List Nat :=
  match vs with
  | [] => data
  | v :: rest => writeBytes (data.set i v) (i + 1) rest

/-- Outcome of one run of `bt_packet_logger_callback_pcap`:
`dropped` — the length sanity check failed, early return, buffer untouched;
`skipped` — the check passed but `hci_h4_type == 0xff`, so the
`if(hci_h4_type != 0xff)` guard suppresses the dump, buffer untouched;
`emitted d r` — record `r` dumped, input buffer rewritten in place to `d`. -/
inductive CallbackResult where
  | dropped
  | skipped
  | emitted (newData : List Nat) (record : PcapRecord)
deriving DecidableEq, Repr

/-- `bt_packet_logger_callback_pcap(data, len)` with `len = data.length`,
parametrised by the maximum packet size constant (`BT_MAX_PACKET_SIZE`). -/
def btCallbackPcap (maxSize : Nat) (data : List Nat) : CallbackResult :=
  let caplen := caplenComputed (readBE32 data 0)
  let plen := origlenComputed data.length
  if plen > maxSize ∨ caplen > maxSize then
    .dropped
  else
    let packet_type := data.getD headerSize 0
    let hci_h4_type := hciH4Type packet_type
    if hci_h4_type = 0xff then
      .skipped
    else
      let d1 := data.set headerSize hci_h4_type
      let d2 := writeBytes d1 (headerSize - 4) (directionBytes (hciDirection packet_type))
      .emitted d2
        ⟨⟨caplen, plen, readBE32 data 4, readBE32 data 8⟩, d2.drop (headerSize - 4)⟩

/-- Observable sink/diagnostic state while the pcap callback runs over a
stream: records dumped so far and the number of length-check drop warnings
printed to stderr. -/
structure PcapSinkState where
  records : List PcapRecord
  drops : Nat
deriving DecidableEq, Repr

/-- Effect of one callback outcome on the sink state: a drop prints one
warning (counted), a skip changes nothing, an emission appends the record. -/
def applyResult (st : PcapSinkState) : CallbackResult → PcapSinkState
  | .dropped => { st with drops := st.drops + 1 }
  | .skipped => st
  | .emitted _ r => { st with records := st.records ++ [r] }

/-- Process one frame: dispatch on the callback result and update the sink
state; the frame buffer itself is owned by the service layer. -/
def processFrame (maxSize : Nat) (st : PcapSinkState) (data : List Nat) :
    PcapSinkState :=
  applyResult st (btCallbackPcap maxSize data)

/-- Process a stream of frames in order. -/
def processFrames (maxSize : Nat) (st : PcapSinkState) (frames : List (List Nat)) :
    PcapSinkState :=
  frames.foldl (processFrame maxSize) st

/-- The buffer as left behind by one callback run (non-emitting runs leave
the input buffer untouched). -/
def bufferAfter (res : CallbackResult) (orig : List Nat) : List Nat :=
  match res with
  | .emitted d _ => d
  | _ => orig

/-! ## Device lifecycle monitor (`device_event_cb`, `start_logging`, `stop_logging`) -/

/-- `idevice_connection_type` of an event. -/
inductive ConnType where
  | usbmuxd
  | network
deriving DecidableEq, Repr

/-- `idevice_event_type` (add = attach, remove = detach). -/
inductive EvType where
  | add
  | remove
deriving DecidableEq, Repr

/-- One `idevice_event_t`. -/
structure DevEvent where
  etype : EvType
  conn : ConnType
  eudid : String
deriving DecidableEq, Repr

/-- The configuration flags the event callback reads (`use_network`,
`exit_on_disconnect`). -/
structure Config where
  useNetwork : Bool
  exitOnDisconnect : Bool
deriving DecidableEq, Repr

/-- The global mutable state touched by the monitor and signal handler:
`udid`, the `device` and `bt_packet_logger` handles (modelled as open/closed
flags), `quit_flag`, and the stdout/stderr messages printed so far. -/
structure MonState where
  udid : Option String
  device : Bool
  btLogger : Bool
  quit : Nat
  stdoutLog : List String
  stderrLog : List String
deriving DecidableEq, Repr

/-- Outcome of the external calls inside `start_logging`: device lookup,
lockdownd handshake, and `bt_packet_logger_start_capture`. -/
inductive StartOutcome where
  | ok
  | noDevice
  | lockdownFail
  | captureFail
deriving DecidableEq, Repr

/-- `start_logging()`: net effect on the globals plus the returned int.
On `ok` both handles end up open and `[connected:udid]` is printed; every
failure path releases whatever was acquired and returns -1. -/
def startLogging (out : StartOutcome) (u : String) (s : MonState) :
    MonState × Int :=
  match out with
  | .ok =>
      ({ s with device := true, btLogger := true,
                stdoutLog := s.stdoutLog ++ ["[connected:" ++ u ++ "]"] }, 0)
  | .noDevice =>
      ({ s with device := false,
                stderrLog := s.stderrLog ++
                  ["Device with udid " ++ u ++ " not found!?"] }, -1)
  | .lockdownFail =>
      ({ s with device := false,
                stderrLog := s.stderrLog ++
                  ["ERROR: Could not connect to lockdownd"] }, -1)
  | .captureFail =>
      ({ s with device := false, btLogger := false,
                stderrLog := s.stderrLog ++
                  ["ERROR: Unable to start capturing bt_packet_logger."] }, -1)

/-- `stop_logging()`: frees the service handle then the device handle; each
free is guarded on the handle being open, so it is idempotent. -/
def stopLogging (s : MonState) : MonState :=
  { s with btLogger := false, device := false }

/-- `device_event_cb(event)`: transport-kind filter, then attach/detach
handling; `startOut` is the outcome of the external calls should
`start_logging` run. -/
def deviceEventCb (cfg : Config) (startOut : StartOutcome) (s : MonState)
    (e : DevEvent) : MonState :=
  if cfg.useNetwork = true ∧ e.conn ≠ .network then s
  else if cfg.useNetwork = false ∧ e.conn ≠ .usbmuxd then s
  else if e.etype = .add then
    if s.btLogger = false then
      let s1 := if s.udid = none then { s with udid := some e.eudid } else s
      if s1.udid = some e.eudid then
        let (s2, ret) := startLogging startOut e.eudid s1
        if ret ≠ 0 then
          { s2 with stderrLog := s2.stderrLog ++
              ["Could not start logger for udid " ++ e.eudid] }
        else s2
      else s1
    else s
  else
    if s.btLogger = true ∧ s.udid = some e.eudid then
      let s2 := stopLogging s
      let s3 := { s2 with stdoutLog := s2.stdoutLog ++
          ["[disconnected:" ++ e.eudid ++ "]"] }
      if cfg.exitOnDisconnect = true then { s3 with quit := s3.quit + 1 } else s3
    else s

/-- `clean_exit(sig)`: the SIGINT/SIGTERM/SIGQUIT handler. It prints
"Exiting..." to stderr and increments `quit_flag`. -/
def cleanExit (s : MonState) : MonState :=
  { s with stderrLog := s.stderrLog ++ ["\nExiting...\n"],
           quit := s.quit + 1 }

/-! ## `main`: option handling, startup checks, exit codes -/

/-- The two values of the `log_format` enum. -/
inductive LogFormat where
  | packetlogger
  | pcap
deriving DecidableEq, Repr

/-- One option as delivered by `getopt_long` (argument values already
attached; `unknownOpt` is getopt's `?` for an unrecognized flag or a
missing required argument). -/
inductive CliOpt where
  | debug
  | udidOpt (arg : String)
  | formatOpt (arg : String)
  | networkOpt
  | exitFlag
  | helpOpt
  | versionOpt
  | unknownOpt
deriving DecidableEq, Repr

/-- Configuration accumulated by the option loop. -/
structure MainCfg where
  udid : Option String
  formatStr : Option String
  useNetwork : Bool
  exitOnDisconnect : Bool
deriving DecidableEq, Repr

/-- All-defaults configuration at entry to `main`. -/
def mainCfgInit : MainCfg := ⟨none, none, false, false⟩

/-- The `while(getopt_long(...))` loop: processes options in order; `-h` and
`-v` return 0, an empty `-u`/`-f` argument or an unknown option returns 2
(`Except.error` carries the early return code). -/
def processOpts : List CliOpt → MainCfg → Except Int MainCfg
  | [], cfg => .ok cfg
  | o :: rest, cfg =>
    match o with
    | .debug => processOpts rest cfg
    | .udidOpt a =>
        if a = "" then .error 2
        else processOpts rest { cfg with udid := some a }
    | .formatOpt a =>
        if a = "" then .error 2
        else processOpts rest { cfg with formatStr := some a }
    | .networkOpt => processOpts rest { cfg with useNetwork := true }
    | .exitFlag => processOpts rest { cfg with exitOnDisconnect := true }
    | .helpOpt => .error 0
    | .versionOpt => .error 0
    | .unknownOpt => .error 2

/-- Resolution of `log_format_string` into `log_format`; `none` means the
string matched neither "packetlogger" nor "pcap" (usage error). -/
def resolveFormat : Option String → Option LogFormat
  | none => some .packetlogger
  | some s =>
      if s = "packetlogger" then some .packetlogger
      else if s = "pcap" then some .pcap
      else none

/-- Environment facts `main` consults at startup: how many devices
`idevice_get_device_list_extended` reports, whether `pcap_dump_open`
returns a non-NULL dumper, and whether `open(out_filename, ...)` returns a
valid fd. -/
structure MainEnv where
  numDevices : Nat
  pcapOpenOk : Bool
  fdOpenOk : Bool
deriving DecidableEq, Repr

/-- How far `main` gets: an early `return code`, or reaching
`idevice_event_subscribe` and the wait loop with the given sink handles
(`pcapOpen` = `pcap_dumper != NULL`, `fdOpen` = `packetlogger_fd >= 0`). -/
inductive MainOutcome where
  | exited (code : Int)
  | running (pcapOpen : Bool) (fdOpen : Bool)
deriving DecidableEq, Repr

/-- The `switch (log_format)` sink-opening step and the preceding
device-list probe. Note that in the pcap branch the result of
`pcap_dump_open` is never checked: execution continues to the subscribe
call with whatever handle (possibly NULL) came back. -/
def mainWithFormat (fmt : LogFormat) (cfg : MainCfg) (env : MainEnv) :
    MainOutcome :=
  if env.numDevices = 0 ∧ cfg.udid = none then .exited (-1)
  else
    match fmt with
    | .pcap => .running env.pcapOpenOk false
    | .packetlogger =>
        if env.fdOpenOk = false then .exited (-2)
        else .running false true

/-- `main` after the option loop: positional output-file check, format
resolution, then the device probe and sink opening. -/
def mainAfterOpts (cfg : MainCfg) (hasOutfile : Bool) (env : MainEnv) :
    MainOutcome :=
  if hasOutfile = false then .exited 2
  else
    (resolveFormat cfg.formatStr).elim (.exited 2)
      (fun fmt => mainWithFormat fmt cfg env)

/-- Dispatch on the outcome of the option loop. -/
def mainFromParse (r : Except Int MainCfg) (hasOutfile : Bool)
    (env : MainEnv) : MainOutcome :=
  match r with
  | .error c => .exited c
  | .ok cfg => mainAfterOpts cfg hasOutfile env

/-- The whole of `main` up to the wait loop. -/
def mainRun (opts : List CliOpt) (hasOutfile : Bool) (env : MainEnv) :
    MainOutcome :=
  mainFromParse (processOpts opts mainCfgInit) hasOutfile env

/-- The value `main` returns once the wait loop has been entered and later
left (the code after the loop always ends in `return 0`). -/
def finalCode : MainOutcome → Int
  | .exited c => c
  | .running _ _ => 0

/-! ## Shutdown sequence after the wait loop -/

/-- The externally visible teardown steps after `while(!quit_flag)` ends. -/
inductive TdAction where
  | unsubscribeEvents
  | freeService
  | freeDevice
  | closePcapDump
  | closeFd
deriving DecidableEq, Repr

/-- The frees performed by `stop_logging()`, in source order: the service
handle (`bt_packet_logger_client_free`) then the device handle
(`idevice_free`), each only if open. -/
def stopLoggingActions (btLogger device : Bool) : List TdAction :=
  (if btLogger then [.freeService] else []) ++
    (if device then [.freeDevice] else [])

/-- The straight-line code after the wait loop:
`idevice_event_unsubscribe(); stop_logging();` then
`pcap_dump_close` if a dumper is open and `close(packetlogger_fd)` if an fd
is open. The trigger that made `quit_flag` nonzero (signal handler or
exit-on-disconnect policy) is not an input: the same sequence runs either
way. -/
def shutdownActions (btLogger device pcapOpen fdOpen : Bool) : List TdAction :=
  [.unsubscribeEvents] ++ stopLoggingActions btLogger device ++
    (if pcapOpen then [.closePcapDump] else []) ++
    (if fdOpen then [.closeFd] else [])

/-- Phase rank used to state the teardown ordering: unsubscribe before
session release, session release before sink close. -/
def tdPhase : TdAction → Nat
  | .unsubscribeEvents => 0
  | .freeService => 1
  | .freeDevice => 2
  | .closePcapDump => 3
  | .closeFd => 3

/-- Count of sink-close actions in a trace. -/
def countSinkCloses (l : List TdAction) : Nat :=
  l.countP (fun a => a = .closePcapDump ∨ a = .closeFd)

/-- The transport-kind filter at the top of `device_event_cb`: with
`use_network` set only `CONNECTION_NETWORK` events pass, otherwise only
`CONNECTION_USBMUXD` events pass. -/
def transportMatches (cfg : Config) (e : DevEvent) : Bool :=
  if cfg.useNetwork then e.conn = .network else e.conn = .usbmuxd

/-! ## Concrete inputs used by witnesses and counterexamples -/

/-- Frame for C1: declared length 10, timestamps 7 and 9, type byte
`HCI_EVENT`, 10 payload bytes (23 bytes in total). -/
def frameC1 : List Nat :=
  [0, 0, 0, 10, 0, 0, 0, 7, 0, 0, 0, 9, 0x01, 1, 2, 3, 4, 5, 6, 7, 8, 9, 10]

/-- Frame for the C1 counterexample: same shape but type byte `0xff`. -/
def frameC1ff : List Nat :=
  [0, 0, 0, 10, 0, 0, 0, 7, 0, 0, 0, 9, 0xff, 1, 2, 3, 4, 5, 6, 7, 8, 9, 10]

/-- Frame for C2: type byte `SENT_ACL_DATA`. -/
def frameC2 : List Nat :=
  [0, 0, 0, 6, 0, 0, 0, 3, 0, 0, 0, 4, 0x02, 11, 12, 13, 14, 15, 16]

/-- Frame for the C2 counterexample: type byte `0xff`, lengths well within
bounds. -/
def frameC2ff : List Nat :=
  [0, 0, 0, 6, 0, 0, 0, 3, 0, 0, 0, 4, 0xff, 11, 12, 13, 14, 15, 16]

/-- Frame for C3: declared length `0x00010000`, so the computed caplen
65540 exceeds `BT_MAX_PACKET_SIZE = 65535`. -/
def frameC3big : List Nat :=
  [0, 1, 0, 0, 0, 0, 0, 0, 0, 0, 0, 0, 0x00, 1, 2]

/-- Frame for C8: type byte `HCI_COMMAND`, nonzero timestamp bytes that the
in-place direction write will overwrite. -/
def frameC8 : List Nat :=
  [0, 0, 0, 5, 0, 0, 0, 1, 0, 0, 0, 2, 0x00, 9, 9, 9, 9, 9]

/-- Frame for C10: declared length 50 although only 8 payload bytes follow
the type byte (21 bytes in total), type byte `HCI_EVENT`. -/
def frameC10 : List Nat :=
  [0, 0, 0, 50, 0, 0, 0, 0, 0, 0, 0, 0, 0x01, 1, 2, 3, 4, 5, 6, 7, 8]

/-- Frame for the C10 counterexample: declared length 50 with 8 payload
bytes, type byte `0xff`. -/
def frameC10ff : List Nat :=
  [0, 0, 0, 50, 0, 0, 0, 0, 0, 0, 0, 0, 0xff, 1, 2, 3, 4, 5, 6, 7, 8]

/-- Unbound monitor state for the C4 witness. -/
def monC4a : MonState := ⟨none, false, false, 0, [], []⟩

/-- Monitor state bound to "x" for the C4 witness. -/
def monC4b : MonState := ⟨some "x", false, false, 0, [], []⟩

/-- Capturing monitor state bound to "w" for the C5 witness. -/
def monC5 : MonState := ⟨some "w", true, true, 0, [], []⟩

/-- Initial-like process state for the C9 counterexample. -/
def monC9 : MonState := ⟨none, false, false, 0, [], []⟩

/-! ## Helper lemmas -/

theorem writeBytes_length (vs l : List Nat) (i : Nat) :
    (writeBytes l i vs).length = l.length := by
  induction vs generalizing l i with
  | nil => rfl
  | cons v rest ih => simp [writeBytes, ih]

theorem writeBytes_getD_outside (vs l : List Nat) (i j : Nat)
    (h : j < i ∨ i + vs.length ≤ j) :
    (writeBytes l i vs).getD j 0 = l.getD j 0 := by
  induction vs generalizing l i with
  | nil => rfl
  | cons v rest ih =>
      have hij : i ≠ j := by simp only [List.length_cons] at h; omega
      rw [writeBytes, ih (l.set i v) (i + 1)
        (by simp only [List.length_cons] at h; omega)]
      simp [List.getD_eq_getElem?_getD, List.getElem?_set_ne hij]

theorem writeBytes_getD_inside (vs l : List Nat) (i k : Nat)
    (hk : k < vs.length) (hb : i + k < l.length) :
    (writeBytes l i vs).getD (i + k) 0 = vs.getD k 0 := by
  induction vs generalizing l i k with
  | nil => simp at hk
  | cons v rest ih =>
      cases k with
      | zero =>
          rw [writeBytes,
            writeBytes_getD_outside rest (l.set i v) (i + 1) (i + 0) (by omega)]
          simpa [List.getD_eq_getElem?_getD] using
            congrArg (Option.getD · 0)
              (List.getElem?_set_eq_of_lt v (by omega : i < l.length))
      | succ k' =>
          have hshift : i + (k' + 1) = (i + 1) + k' := by omega
          have hk' : k' < rest.length := by
            simp only [List.length_cons] at hk; omega
          rw [writeBytes, hshift,
            ih (l.set i v) (i + 1) k' hk'
              (by simp only [List.length_set]; omega)]
          simp [List.getD_cons_succ]

theorem caplenComputed_eq (L : Nat) (h : L + 4 < 2 ^ 32) :
    caplenComputed L = L + 4 :=
  Nat.mod_eq_of_lt h

theorem origlenComputed_eq (F : Nat) (h8 : 8 ≤ F) (h : F - 8 < 2 ^ 32) :
    origlenComputed F = F - 8 := by
  unfold origlenComputed headerSize
  have h32 : (2 : Nat) ^ 32 = 4294967296 := by norm_num
  rw [h32] at h ⊢
  omega

theorem hciH4Type_eq_ff_iff (t : Nat) : hciH4Type t = 0xff ↔ t = 0xff := by
  unfold hciH4Type HCI_EVENT HCI_COMMAND SENT_ACL_DATA RECV_ACL_DATA
  split_ifs with h1 h2 h3 h4 <;> omega

/-- The result of `bt_packet_logger_callback_pcap` when the length check
passes and the type byte is not the `0xff` sentinel. -/
theorem btCallbackPcap_emitted_eq (maxSize : Nat) (data : List Nat)
    (hlen : ¬(origlenComputed data.length > maxSize ∨
              caplenComputed (readBE32 data 0) > maxSize))
    (ht : data.getD headerSize 0 ≠ 0xff) :
    btCallbackPcap maxSize data =
      .emitted
        (writeBytes (data.set headerSize (hciH4Type (data.getD headerSize 0)))
          (headerSize - 4) (directionBytes (hciDirection (data.getD headerSize 0))))
        ⟨⟨caplenComputed (readBE32 data 0), origlenComputed data.length,
          readBE32 data 4, readBE32 data 8⟩,
         (writeBytes (data.set headerSize (hciH4Type (data.getD headerSize 0)))
           (headerSize - 4)
           (directionBytes (hciDirection (data.getD headerSize 0)))).drop
             (headerSize - 4)⟩ := by
  simp only [btCallbackPcap]
  rw [if_neg hlen, if_neg (by rw [hciH4Type_eq_ff_iff]; exact ht)]

/-- The result when the length check fails. -/
theorem btCallbackPcap_dropped_eq (maxSize : Nat) (data : List Nat)
    (h : origlenComputed data.length > maxSize ∨
         caplenComputed (readBE32 data 0) > maxSize) :
    btCallbackPcap maxSize data = .dropped := by
  simp only [btCallbackPcap]
  rw [if_pos h]

/-! ## Claim C1 -/

/-- C1 (amended): for every raw frame of F ≥ 13 bytes (header, type byte and
payload; F fits in the `uint16_t` len argument) whose header declares length
L big-endian, if L + 4 and F - headerSize + 4 are at most the maximum frame
size (a `u32`) and the type byte is not `0xff`, the pcap callback emits a
record with `capture_length = L + 4`, `original_length = F - headerSize + 4`,
and timestamps read big-endian from the header. (As stated the claim fails
for type byte `0xff`, where no record is emitted.) -/
theorem C1_translate_lengths (maxSize : Nat) (data : List Nat)
    (hF13 : 13 ≤ data.length) (hF : data.length ≤ 65535)
    (hmax : maxSize < 2 ^ 32)
    (hcap : readBE32 data 0 + 4 ≤ maxSize)
    (horig : data.length - headerSize + 4 ≤ maxSize)
    (htype : data.getD headerSize 0 ≠ 0xff) :
    ∃ d r, btCallbackPcap maxSize data = .emitted d r ∧
      r.header.caplen = readBE32 data 0 + 4 ∧
      r.header.len = data.length - headerSize + 4 ∧
      r.header.ts_sec = readBE32 data 4 ∧
      r.header.ts_usec = readBE32 data 8 := by
  have hhs : headerSize = 12 := rfl
  rw [hhs] at horig ⊢
  have hcap' : caplenComputed (readBE32 data 0) = readBE32 data 0 + 4 :=
    caplenComputed_eq _ (by omega)
  have horig' : origlenComputed data.length = data.length - 8 :=
    origlenComputed_eq _ (by omega) (by omega)
  refine ⟨_, _, btCallbackPcap_emitted_eq maxSize data ?_ htype, ?_, ?_, rfl, rfl⟩
  · rw [hcap', horig']
    omega
  · exact hcap'
  · show origlenComputed data.length = data.length - 12 + 4
    rw [horig']
    omega

/-- Witness for C1: the amended theorem applied to the concrete frame
`frameC1` (L = 10, F = 23, type byte `HCI_EVENT`). -/
theorem C1_translate_lengths_witness :
    ∃ d r, btCallbackPcap 65535 frameC1 = .emitted d r ∧
      r.header.caplen = readBE32 frameC1 0 + 4 ∧
      r.header.len = frameC1.length - headerSize + 4 ∧
      r.header.ts_sec = readBE32 frameC1 4 ∧
      r.header.ts_usec = readBE32 frameC1 8 :=
  C1_translate_lengths 65535 frameC1 (by decide) (by decide) (by decide)
    (by decide) (by decide) (by decide)

/-- Counterexample to C1 as stated: `frameC1ff` has both computed lengths
within the maximum (14 and 15 against 65535), yet the callback emits no
record because its type byte is `0xff`. -/
theorem C1_counterexample :
    caplenComputed (readBE32 frameC1ff 0) ≤ 65535 ∧
    origlenComputed frameC1ff.length ≤ 65535 ∧
    btCallbackPcap 65535 frameC1ff = .skipped ∧
    (processFrame 65535 ⟨[], 0⟩ frameC1ff).records = [] := by decide

/-! ## Claim C2 -/

/-- C2 (amended): the type byte is mapped by the fixed table
HCI_EVENT(0x01) → (0x04, RECV), HCI_COMMAND(0x00) → (0x01, SENT),
SENT_ACL_DATA(0x02) → (0x02, SENT), RECV_ACL_DATA(0x03) → (0x02, RECV);
every other type byte passes through unchanged with direction RECV.
A record is emitted for every accepted frame whose type byte is not `0xff`;
an accepted frame with type byte `0xff` hits the sentinel guard
`if (hci_h4_type != 0xff)` and is silently skipped: no record. -/
theorem C2_type_mapping :
    (hciH4Type HCI_EVENT = 0x04 ∧ hciDirection HCI_EVENT = .recv) ∧
    (hciH4Type HCI_COMMAND = 0x01 ∧ hciDirection HCI_COMMAND = .sent) ∧
    (hciH4Type SENT_ACL_DATA = 0x02 ∧ hciDirection SENT_ACL_DATA = .sent) ∧
    (hciH4Type RECV_ACL_DATA = 0x02 ∧ hciDirection RECV_ACL_DATA = .recv) ∧
    (∀ t, t ≠ HCI_COMMAND → t ≠ HCI_EVENT → t ≠ SENT_ACL_DATA →
      t ≠ RECV_ACL_DATA → hciH4Type t = t ∧ hciDirection t = .recv) ∧
    (∀ maxSize data,
      ¬(origlenComputed data.length > maxSize ∨
        caplenComputed (readBE32 data 0) > maxSize) →
      data.getD headerSize 0 ≠ 0xff →
      ∃ d r, btCallbackPcap maxSize data = .emitted d r) ∧
    (∀ maxSize data,
      ¬(origlenComputed data.length > maxSize ∨
        caplenComputed (readBE32 data 0) > maxSize) →
      data.getD headerSize 0 = 0xff →
      btCallbackPcap maxSize data = .skipped) := by
  refine ⟨⟨rfl, rfl⟩, ⟨rfl, rfl⟩, ⟨rfl, rfl⟩, ⟨rfl, rfl⟩, ?_, ?_, ?_⟩
  · intro t h0 h1 h2 h3
    simp only [HCI_COMMAND] at h0
    simp only [HCI_EVENT] at h1
    simp only [SENT_ACL_DATA] at h2
    simp only [RECV_ACL_DATA] at h3
    unfold hciH4Type hciDirection HCI_EVENT HCI_COMMAND SENT_ACL_DATA RECV_ACL_DATA
    rw [if_neg h1, if_neg h0, if_neg h2, if_neg h3,
        if_neg h1, if_neg h0, if_neg h2, if_neg h3]
    exact ⟨rfl, rfl⟩
  · intro maxSize data hlen ht
    exact ⟨_, _, btCallbackPcap_emitted_eq maxSize data hlen ht⟩
  · intro maxSize data hlen ht
    simp only [btCallbackPcap]
    rw [if_neg hlen, if_pos ((hciH4Type_eq_ff_iff _).mpr ht)]

/-- Witness for C2: a `SENT_ACL_DATA` frame is emitted; an otherwise
identical frame with type byte `0xff` is skipped. -/
theorem C2_type_mapping_witness :
    (∃ d r, btCallbackPcap 65535 frameC2 = .emitted d r) ∧
    btCallbackPcap 65535 frameC2ff = .skipped :=
  ⟨C2_type_mapping.2.2.2.2.2.1 65535 frameC2 (by decide) (by decide),
   C2_type_mapping.2.2.2.2.2.2 65535 frameC2ff (by decide) (by decide)⟩

/-- Counterexample to C2 as stated: `frameC2ff` passes the length check
(computed lengths 10 and 11), so it is an accepted frame, but no record is
emitted for it. -/
theorem C2_counterexample :
    caplenComputed (readBE32 frameC2ff 0) ≤ 65535 ∧
    origlenComputed frameC2ff.length ≤ 65535 ∧
    btCallbackPcap 65535 frameC2ff = .skipped ∧
    (processFrame 65535 ⟨[], 0⟩ frameC2ff).records = [] := by decide

/-! ## Claim C3 -/

/-- C3: whenever the computed `caplen` or `len` exceeds the maximum frame
size, the callback returns `.dropped`: the sink receives no record, the
warning/drop counter increments by exactly 1, and processing of the
remaining frames continues from that state. -/
theorem C3_oversize_dropped (maxSize : Nat) (st : PcapSinkState)
    (data : List Nat) (rest : List (List Nat))
    (h : origlenComputed data.length > maxSize ∨
         caplenComputed (readBE32 data 0) > maxSize) :
    btCallbackPcap maxSize data = .dropped ∧
    (processFrame maxSize st data).records = st.records ∧
    (processFrame maxSize st data).drops = st.drops + 1 ∧
    processFrames maxSize st (data :: rest) =
      processFrames maxSize { st with drops := st.drops + 1 } rest := by
  have hcb := btCallbackPcap_dropped_eq maxSize data h
  have h1 : processFrame maxSize st data = { st with drops := st.drops + 1 } := by
    unfold processFrame
    rw [hcb]
    rfl
  exact ⟨hcb, by rw [h1], by rw [h1],
    by simp only [processFrames, List.foldl_cons, h1]⟩

/-- Witness for C3: the oversize frame `frameC3big` (computed caplen 65540)
is dropped and bumps the drop counter from 0 to 1. -/
theorem C3_oversize_dropped_witness :
    btCallbackPcap 65535 frameC3big = .dropped ∧
    (processFrame 65535 ⟨[], 0⟩ frameC3big).records = [] ∧
    (processFrame 65535 ⟨[], 0⟩ frameC3big).drops = 0 + 1 :=
  ⟨(C3_oversize_dropped 65535 ⟨[], 0⟩ frameC3big [] (by decide)).1,
   (C3_oversize_dropped 65535 ⟨[], 0⟩ frameC3big [] (by decide)).2.1,
   (C3_oversize_dropped 65535 ⟨[], 0⟩ frameC3big [] (by decide)).2.2.1⟩

/-! ## Claim C10 -/

/-- C10 (amended): the callback never compares the declared length against
the frame's actual byte count. For every frame within the two computed
bounds whose type byte is not `0xff`, a record is emitted with
`capture_length = L + 4` and `original_length = F - headerSize + 4` even
when L exceeds the available payload, so `capture_length` can exceed both
`original_length` and the `F - 8` body bytes actually available. (As
stated the claim fails for type byte `0xff`, where no record is emitted.) -/
theorem C10_no_length_crosscheck (maxSize : Nat) (data : List Nat)
    (hF13 : 13 ≤ data.length) (hF : data.length ≤ 65535)
    (hmax : maxSize < 2 ^ 32)
    (hcap : readBE32 data 0 + 4 ≤ maxSize)
    (horig : data.length - headerSize + 4 ≤ maxSize)
    (htype : data.getD headerSize 0 ≠ 0xff) :
    ∃ d r, btCallbackPcap maxSize data = .emitted d r ∧
      r.header.caplen = readBE32 data 0 + 4 ∧
      r.header.len = data.length - headerSize + 4 ∧
      r.bytes.length = data.length - 8 := by
  have hhs : headerSize = 12 := rfl
  rw [hhs] at horig ⊢
  have hcap' : caplenComputed (readBE32 data 0) = readBE32 data 0 + 4 :=
    caplenComputed_eq _ (by omega)
  have horig' : origlenComputed data.length = data.length - 8 :=
    origlenComputed_eq _ (by omega) (by omega)
  refine ⟨_, _, btCallbackPcap_emitted_eq maxSize data ?_ htype, hcap', ?_, ?_⟩
  · rw [hcap', horig']
    omega
  · show origlenComputed data.length = data.length - 12 + 4
    rw [horig']
    omega
  · show ((writeBytes _ _ _).drop (headerSize - 4)).length = data.length - 8
    rw [List.length_drop, writeBytes_length, List.length_set]
    rfl

/-- Witness for C10: `frameC10` declares length 50 while only 21 bytes were
delivered; it is still emitted, and its `capture_length` 54 exceeds its
`original_length` 13 (and the 13 available body bytes). -/
theorem C10_no_length_crosscheck_witness :
    (∃ d r, btCallbackPcap 65535 frameC10 = .emitted d r ∧
      r.header.caplen = readBE32 frameC10 0 + 4 ∧
      r.header.len = frameC10.length - headerSize + 4 ∧
      r.bytes.length = frameC10.length - 8) ∧
    readBE32 frameC10 0 + 4 > frameC10.length - headerSize + 4 :=
  ⟨C10_no_length_crosscheck 65535 frameC10 (by decide) (by decide) (by decide)
      (by decide) (by decide) (by decide),
   by decide⟩

/-- Counterexample to C10 as stated: `frameC10ff` is within both computed
bounds (caplen 54, len 13) and its declared length 50 exceeds the actual
payload, yet no record is emitted because its type byte is `0xff`. -/
theorem C10_counterexample :
    caplenComputed (readBE32 frameC10ff 0) ≤ 65535 ∧
    origlenComputed frameC10ff.length ≤ 65535 ∧
    btCallbackPcap 65535 frameC10ff = .skipped ∧
    (processFrame 65535 ⟨[], 0⟩ frameC10ff).records = [] := by decide

/-! ## Claim C8 -/

/-- C8 (amended): the translation step is a pure function of the frame
bytes (deterministic, modelled as a Lean function), but it does NOT leave
the input buffer unchanged on emission: the type byte at offset
`headerSize` is rewritten to the mapped uart type and the four bytes at
offsets `headerSize - 4 .. headerSize - 1` are overwritten with the
direction pseudo-header; every other byte is preserved, and dropped or
skipped frames leave the buffer untouched (the model returns no new buffer
for them). -/
theorem C8_translate_buffer_effects (maxSize : Nat) (data : List Nat)
    (hF13 : 13 ≤ data.length)
    (hlen : ¬(origlenComputed data.length > maxSize ∨
              caplenComputed (readBE32 data 0) > maxSize))
    (htype : data.getD headerSize 0 ≠ 0xff) :
    ∃ d r, btCallbackPcap maxSize data = .emitted d r ∧
      d.length = data.length ∧
      d.getD headerSize 0 = hciH4Type (data.getD headerSize 0) ∧
      (∀ k, k < 4 → d.getD (headerSize - 4 + k) 0 =
        (directionBytes (hciDirection (data.getD headerSize 0))).getD k 0) ∧
      (∀ j, j < headerSize - 4 ∨ headerSize < j →
        d.getD j 0 = data.getD j 0) := by
  have hhs : headerSize = 12 := rfl
  have hdirlen :
      (directionBytes (hciDirection (data.getD headerSize 0))).length = 4 := by
    cases hciDirection (data.getD headerSize 0) <;> rfl
  refine ⟨_, _, btCallbackPcap_emitted_eq maxSize data hlen htype,
    ?_, ?_, ?_, ?_⟩
  · show (writeBytes (data.set headerSize (hciH4Type (data.getD headerSize 0)))
        (headerSize - 4)
        (directionBytes (hciDirection (data.getD headerSize 0)))).length =
      data.length
    rw [writeBytes_length, List.length_set]
  · show (writeBytes (data.set 12 (hciH4Type (data.getD 12 0))) 8
        (directionBytes (hciDirection (data.getD 12 0)))).getD 12 0 =
      hciH4Type (data.getD 12 0)
    rw [writeBytes_getD_outside _ _ _ _
      (Or.inr (by rw [hhs] at hdirlen; rw [hdirlen]))]
    rw [List.getD_eq_getElem?_getD,
      List.getElem?_set_eq_of_lt (hciH4Type (data.getD 12 0))
        (show 12 < data.length by omega)]
    rfl
  · intro k hk
    show (writeBytes (data.set 12 (hciH4Type (data.getD 12 0))) 8
        (directionBytes (hciDirection (data.getD 12 0)))).getD (8 + k) 0 =
      (directionBytes (hciDirection (data.getD 12 0))).getD k 0
    rw [hhs] at hdirlen
    exact writeBytes_getD_inside _ _ 8 k (by rw [hdirlen]; omega)
      (by rw [List.length_set]; omega)
  · intro j hj
    rw [hhs] at hj
    show (writeBytes (data.set 12 (hciH4Type (data.getD 12 0))) 8
        (directionBytes (hciDirection (data.getD 12 0)))).getD j 0 =
      data.getD j 0
    rw [hhs] at hdirlen
    rw [writeBytes_getD_outside _ _ _ _ (by rw [hdirlen]; omega)]
    simp [List.getD_eq_getElem?_getD,
      List.getElem?_set_ne (show (12 : Nat) ≠ j by omega)]

/-- Witness for C8: the amended theorem applied to `frameC8`
(type byte `HCI_COMMAND`). -/
theorem C8_translate_buffer_effects_witness :
    ∃ d r, btCallbackPcap 65535 frameC8 = .emitted d r ∧
      d.length = frameC8.length ∧
      d.getD headerSize 0 = hciH4Type (frameC8.getD headerSize 0) ∧
      (∀ k, k < 4 → d.getD (headerSize - 4 + k) 0 =
        (directionBytes (hciDirection (frameC8.getD headerSize 0))).getD k 0) ∧
      (∀ j, j < headerSize - 4 ∨ headerSize < j →
        d.getD j 0 = frameC8.getD j 0) :=
  C8_translate_buffer_effects 65535 frameC8 (by decide) (by decide) (by decide)

/-- Counterexample to C8 as stated: translating `frameC8` does not leave
the input frame buffer unchanged (the type byte and the four bytes before
it are rewritten in place). -/
theorem C8_counterexample :
    bufferAfter (btCallbackPcap 65535 frameC8) frameC8 ≠ frameC8 := by decide

/-! ## Claim C4 -/

/-- C4: the monitor (1) ignores entirely every event of the non-configured
transport kind; (2) adopts the identity of the first matching attach event
as the bound identity when none is bound; (3) once an identity is bound,
leaves the state completely unchanged on any attach/detach event carrying a
different identity. -/
theorem C4_monitor_identity :
    (∀ cfg out s e, transportMatches cfg e = false →
      deviceEventCb cfg out s e = s) ∧
    (∀ cfg out s e, transportMatches cfg e = true → e.etype = .add →
      s.udid = none → s.btLogger = false →
      (deviceEventCb cfg out s e).udid = some e.eudid) ∧
    (∀ cfg out s e u, s.udid = some u → e.eudid ≠ u →
      deviceEventCb cfg out s e = s) := by
  refine ⟨?_, ?_, ?_⟩
  · intro cfg out s e htm
    rcases huse : cfg.useNetwork with _ | _
    · have hconn : ¬(e.conn = .usbmuxd) := by
        simpa [transportMatches, huse] using htm
      simp [deviceEventCb, huse, hconn]
    · have hconn : ¬(e.conn = .network) := by
        simpa [transportMatches, huse] using htm
      simp [deviceEventCb, huse, hconn]
  · intro cfg out s e htm hadd hudid hbt
    rcases huse : cfg.useNetwork with _ | _
    · have hconn : e.conn = .usbmuxd := by
        simpa [transportMatches, huse] using htm
      cases out <;>
        simp [deviceEventCb, huse, hconn, hadd, hudid, hbt, startLogging]
    · have hconn : e.conn = .network := by
        simpa [transportMatches, huse] using htm
      cases out <;>
        simp [deviceEventCb, huse, hconn, hadd, hudid, hbt, startLogging]
  · intro cfg out s e u hudid hne
    simp [deviceEventCb, hudid, Ne.symm hne]

/-- Witness for C4: a network-transport event is ignored by a local-bus
monitor; a matching attach binds the UDID "x"; an attach for "y" leaves a
monitor bound to "x" unchanged. -/
theorem C4_monitor_identity_witness :
    deviceEventCb ⟨false, false⟩ .ok monC4a ⟨.add, .network, "x"⟩ = monC4a ∧
    (deviceEventCb ⟨false, false⟩ .ok monC4a ⟨.add, .usbmuxd, "x"⟩).udid =
      some "x" ∧
    deviceEventCb ⟨false, false⟩ .ok monC4b ⟨.add, .usbmuxd, "y"⟩ = monC4b :=
  ⟨C4_monitor_identity.1 ⟨false, false⟩ .ok monC4a ⟨.add, .network, "x"⟩
      (by decide),
   C4_monitor_identity.2.1 ⟨false, false⟩ .ok monC4a ⟨.add, .usbmuxd, "x"⟩
      (by decide) rfl rfl rfl,
   C4_monitor_identity.2.2 ⟨false, false⟩ .ok monC4b ⟨.add, .usbmuxd, "y"⟩
      "x" rfl (by decide)⟩

/-! ## Claim C5 -/

/-- C5: a detach event matching the bound identity while the session is
capturing stops the session (both handles released, identity still bound),
emits the disconnected notification, and makes the termination flag nonzero
if and only if the exit-on-disconnect policy is set. -/
theorem C5_detach_stop (cfg : Config) (out : StartOutcome) (s : MonState)
    (u : String) (conn : ConnType)
    (htm : transportMatches cfg ⟨.remove, conn, u⟩ = true)
    (hudid : s.udid = some u) (hbt : s.btLogger = true) (hq : s.quit = 0) :
    (deviceEventCb cfg out s ⟨.remove, conn, u⟩).btLogger = false ∧
    (deviceEventCb cfg out s ⟨.remove, conn, u⟩).device = false ∧
    (deviceEventCb cfg out s ⟨.remove, conn, u⟩).udid = some u ∧
    (deviceEventCb cfg out s ⟨.remove, conn, u⟩).stdoutLog =
      s.stdoutLog ++ ["[disconnected:" ++ u ++ "]"] ∧
    ((deviceEventCb cfg out s ⟨.remove, conn, u⟩).quit ≠ 0 ↔
      cfg.exitOnDisconnect = true) := by
  rcases huse : cfg.useNetwork with _ | _
  · have hconn : conn = .usbmuxd := by
      simpa [transportMatches, huse] using htm
    rcases hexit : cfg.exitOnDisconnect with _ | _ <;>
      simp [deviceEventCb, stopLogging, huse, hconn, hudid, hbt, hq, hexit]
  · have hconn : conn = .network := by
      simpa [transportMatches, huse] using htm
    rcases hexit : cfg.exitOnDisconnect with _ | _ <;>
      simp [deviceEventCb, stopLogging, huse, hconn, hudid, hbt, hq, hexit]

/-- Witness for C5: detaching "w" from a capturing session with the
exit-on-disconnect policy set releases both handles, logs the disconnected
notification, and makes the termination flag nonzero. -/
theorem C5_detach_stop_witness :
    (deviceEventCb ⟨false, true⟩ .ok monC5 ⟨.remove, .usbmuxd, "w"⟩).btLogger =
      false ∧
    (deviceEventCb ⟨false, true⟩ .ok monC5 ⟨.remove, .usbmuxd, "w"⟩).device =
      false ∧
    (deviceEventCb ⟨false, true⟩ .ok monC5 ⟨.remove, .usbmuxd, "w"⟩).udid =
      some "w" ∧
    (deviceEventCb ⟨false, true⟩ .ok monC5 ⟨.remove, .usbmuxd, "w"⟩).stdoutLog =
      monC5.stdoutLog ++ ["[disconnected:" ++ "w" ++ "]"] ∧
    ((deviceEventCb ⟨false, true⟩ .ok monC5 ⟨.remove, .usbmuxd, "w"⟩).quit ≠ 0 ↔
      (⟨false, true⟩ : Config).exitOnDisconnect = true) :=
  C5_detach_stop ⟨false, true⟩ .ok monC5 "w" .usbmuxd (by decide) rfl rfl rfl

/-! ## Claim C9 -/

/-- C9 (amended): the signal handler increments the termination flag and
touches no session or sink state (identity, device and service handles, and
the stdout log are unchanged), but it is not I/O-free: it also prints an
"Exiting..." message to standard error. -/
theorem C9_handler_effects (s : MonState) :
    (cleanExit s).quit = s.quit + 1 ∧
    (cleanExit s).udid = s.udid ∧
    (cleanExit s).device = s.device ∧
    (cleanExit s).btLogger = s.btLogger ∧
    (cleanExit s).stdoutLog = s.stdoutLog ∧
    (cleanExit s).stderrLog = s.stderrLog ++ ["\nExiting...\n"] :=
  ⟨rfl, rfl, rfl, rfl, rfl, rfl⟩

/-- Counterexample to C9 as stated: the handler does not leave all state
other than the termination flag unchanged — it performs I/O by appending a
message to standard error. -/
theorem C9_counterexample :
    (cleanExit monC9).stderrLog ≠ monC9.stderrLog ∧
    cleanExit monC9 ≠ { monC9 with quit := monC9.quit + 1 } := by decide

/-! ## Claim C6 -/

/-- C6 (amended): the option loop returns 0 for help/version and 2 for an
empty `-u`/`-f` argument or an unknown option; a parse early-return is the
process exit code; a missing output path or an unknown format string exits
with 2; no device found with no UDID configured exits with -1; a sink-open
failure exits with -2 in the packetlogger format, but in the pcap format
the open failure is never checked and startup continues to the subscribe
step; once the wait loop is reached the eventual return value is 0. -/
theorem C6_exit_codes :
    (∀ rest cfg, processOpts (.helpOpt :: rest) cfg = .error 0) ∧
    (∀ rest cfg, processOpts (.versionOpt :: rest) cfg = .error 0) ∧
    (∀ rest cfg, processOpts (.udidOpt "" :: rest) cfg = .error 2) ∧
    (∀ rest cfg, processOpts (.formatOpt "" :: rest) cfg = .error 2) ∧
    (∀ rest cfg, processOpts (.unknownOpt :: rest) cfg = .error 2) ∧
    (∀ opts h env c, processOpts opts mainCfgInit = .error c →
      mainRun opts h env = .exited c) ∧
    (∀ opts h env cfg, processOpts opts mainCfgInit = .ok cfg →
      mainRun opts h env = mainAfterOpts cfg h env) ∧
    (∀ cfg env, mainAfterOpts cfg false env = .exited 2) ∧
    (∀ cfg env fs, cfg.formatStr = some fs → fs ≠ "packetlogger" →
      fs ≠ "pcap" → mainAfterOpts cfg true env = .exited 2) ∧
    (∀ cfg env, env.numDevices = 0 → cfg.udid = none →
      resolveFormat cfg.formatStr ≠ none →
      mainAfterOpts cfg true env = .exited (-1)) ∧
    (∀ cfg env, resolveFormat cfg.formatStr = some .packetlogger →
      ¬(env.numDevices = 0 ∧ cfg.udid = none) → env.fdOpenOk = false →
      mainAfterOpts cfg true env = .exited (-2)) ∧
    (∀ cfg env, resolveFormat cfg.formatStr = some .pcap →
      ¬(env.numDevices = 0 ∧ cfg.udid = none) →
      mainAfterOpts cfg true env = .running env.pcapOpenOk false) ∧
    (∀ p f, finalCode (.running p f) = 0) := by
  refine ⟨fun rest cfg => rfl, fun rest cfg => rfl,
    fun rest cfg => rfl, fun rest cfg => rfl, fun rest cfg => rfl,
    ?_, ?_, fun cfg env => rfl, ?_, ?_, ?_, ?_, fun p f => rfl⟩
  · intro opts h env c hpo
    unfold mainRun
    rw [hpo]
    rfl
  · intro opts h env cfg hpo
    unfold mainRun
    rw [hpo]
    rfl
  · intro cfg env fs hfs h1 h2
    simp [mainAfterOpts, resolveFormat, hfs, h1, h2]
  · intro cfg env hnum hudid hfmt
    rcases Option.ne_none_iff_exists'.mp hfmt with ⟨fmt, hfmt'⟩
    simp [mainAfterOpts, hfmt', mainWithFormat, hnum, hudid]
  · intro cfg env hres hdev hfd
    simp [mainAfterOpts, hres, mainWithFormat, hdev, hfd]
  · intro cfg env hres hdev
    simp [mainAfterOpts, hres, mainWithFormat, hdev]

/-- Witness for C6: concrete instances of the amended exit-code behaviors,
including a packetlogger open failure exiting with -2 and a pcap open
failure that still reaches the wait loop. -/
theorem C6_exit_codes_witness :
    processOpts [.helpOpt] mainCfgInit = .error 0 ∧
    mainRun [.unknownOpt] true ⟨1, true, true⟩ = .exited 2 ∧
    mainAfterOpts mainCfgInit false ⟨1, true, true⟩ = .exited 2 ∧
    mainAfterOpts ⟨none, some "yaml", false, false⟩ true ⟨1, true, true⟩ =
      .exited 2 ∧
    mainAfterOpts mainCfgInit true ⟨0, true, true⟩ = .exited (-1) ∧
    mainAfterOpts ⟨some "u1", none, false, false⟩ true ⟨0, true, false⟩ =
      .exited (-2) ∧
    mainAfterOpts ⟨some "u1", some "pcap", false, false⟩ true ⟨0, false, true⟩ =
      .running false false :=
  ⟨C6_exit_codes.1 [] mainCfgInit,
   C6_exit_codes.2.2.2.2.2.1 [.unknownOpt] true ⟨1, true, true⟩ 2 rfl,
   C6_exit_codes.2.2.2.2.2.2.2.1 mainCfgInit ⟨1, true, true⟩,
   C6_exit_codes.2.2.2.2.2.2.2.2.1 ⟨none, some "yaml", false, false⟩
     ⟨1, true, true⟩ "yaml" rfl (by decide) (by decide),
   C6_exit_codes.2.2.2.2.2.2.2.2.2.1 mainCfgInit ⟨0, true, true⟩ rfl rfl
     (by decide),
   C6_exit_codes.2.2.2.2.2.2.2.2.2.2.1 ⟨some "u1", none, false, false⟩
     ⟨0, true, false⟩ rfl (by decide) rfl,
   C6_exit_codes.2.2.2.2.2.2.2.2.2.2.2.1 ⟨some "u1", some "pcap", false, false⟩
     ⟨0, false, true⟩ (by decide) (by decide)⟩

/-- Counterexample to C6 as stated: with the pcap format and an output
destination that cannot be opened (`pcapOpenOk = false`), `main` does not
return -2; it proceeds to subscribe to device events and enters the wait
loop with a NULL dumper. -/
theorem C6_counterexample :
    mainRun [.formatOpt "pcap"] true ⟨1, false, true⟩ = .running false false ∧
    mainRun [.formatOpt "pcap"] true ⟨1, false, true⟩ ≠ .exited (-2) := by
  decide

/-! ## Claim C7 -/

/-- C7: the teardown trace after the wait loop — for every combination of
open handles, and independently of what made `quit_flag` nonzero — starts
with the unsubscribe step, is ordered unsubscribe ≤ service release ≤
device release ≤ sink close, closes each open sink exactly once (so exactly
one close when exactly one sink is open, as a run of `main` arranges), and
contains the unsubscribe step exactly once. -/
theorem C7_shutdown_order (bt dev p f : Bool) :
    (shutdownActions bt dev p f).head? = some .unsubscribeEvents ∧
    List.Pairwise (fun a b => tdPhase a ≤ tdPhase b)
      (shutdownActions bt dev p f) ∧
    countSinkCloses (stopLoggingActions bt dev) = 0 ∧
    countSinkCloses (shutdownActions bt dev p f) =
      (if p then 1 else 0) + (if f then 1 else 0) ∧
    (shutdownActions bt dev p f).count .unsubscribeEvents = 1 := by
  cases bt <;> cases dev <;> cases p <;> cases f <;> decide

end BtLogger
